import Mathlib

/-!
Verification of `network_documentation.py`, a script that enumerates the
accounts of an AWS organization, assumes a role in each account, collects
per-region networking resources through eight collector functions, and
stores the aggregate as a JSON object.

The cloud provider is modelled as an environment record `Cloud ρ` giving
the response of every API call the script performs; `ρ` is the type of
the opaque provider resource records, which the script passes through
unmodified.  An API call that raises is modelled by `Except.error`;
Python dictionaries (which preserve insertion order and overwrite in
place) are modelled by association lists with `dictInsert`.
-/

set_option autoImplicit false

namespace NetworkDoc

universe u

variable {α : Type u} {β : Type u} {ρ : Type}

/-- Python `d[k] = v` on an insertion-ordered dict represented as an
association list: an existing key keeps its position and gets the new
value, a new key is appended at the end. -/
def dictInsert [DecidableEq α] (k : α) (v : β) : List (α × β) → List (α × β)
  | [] => [(k, v)]
  | (k₀, v₀) :: rest => if k₀ = k then (k, v) :: rest else (k₀, v₀) :: dictInsert k v rest

/-- Python `d.get(k)` on the association-list model of a dict. -/
def dictLookup [DecidableEq α] (k : α) : List (α × β) → Option β
  | [] => none
  | (k₀, v₀) :: rest => if k₀ = k then some v₀ else dictLookup k rest

/-- The temporary credentials dictionary built by `get_credentials`:
AccessKeyId, SecretAccessKey, SessionToken. -/
structure Creds where
  accessKeyId : String
  secretAccessKey : String
  sessionToken : String
deriving DecidableEq, Repr

/-- A `boto3.Session` bound to assumed-role credentials and one region
(`get_account_documentation`, lines 34-37 of the source). -/
structure Session where
  creds : Creds
  region : String
deriving DecidableEq, Repr

/-- The cloud environment: one field per provider API call the script
performs.  Organization records (roots, OUs, accounts) are represented by
the single field the script reads from them, their `Id` string.
`Except.error` models the call raising an exception; the `String` is the
exception text.  `dumpRecord` is how `json.dumps` renders one opaque
resource record. -/
structure Cloud (ρ : Type) where
  listRoots : Except String (List String)
  listOUsForParent : String → Except String (List String)
  listAccountsForParent : String → Except String (List String)
  assumeRole : String → Except String Creds
  describeRegions : Except String (List String)
  describeVpcs : Creds → String → Except String (List ρ)
  describeSubnets : Creds → String → Except String (List ρ)
  describeSecurityGroups : Creds → String → Except String (List ρ)
  describeNetworkAcls : Creds → String → Except String (List ρ)
  describeRouteTables : Creds → String → Except String (List ρ)
  describeVpcEndpoints : Creds → String → Except String (List ρ)
  describeVpcPeeringConnections : Creds → String → Except String (List ρ)
  describeLoadBalancers : Creds → String → Except String (List ρ)
  putObject : String → String → String → Except String Unit
  dumpRecord : ρ → String

/-- Resource-type-name to list-of-records mapping for one region
(the `region_info` dict). -/
abbrev RegionInfo (ρ : Type) := List (String × List ρ)

/-- Region-code to `RegionInfo` mapping for one account
(the `account_info` dict). -/
abbrev AccountInfo (ρ : Type) := List (String × RegionInfo ρ)

/-- The full three-level document: account-id to `AccountInfo`
(the `documentation` dict built by `main`). -/
abbrev Documentation (ρ : Type) := List (String × AccountInfo ρ)

/-- `get_credentials` (source lines 4-20): assume the role in the target
account and return the three-field credentials dict; any exception is
caught, logged, and turned into `None`.  The outer `Except` is the
function raising (it never does: the `try` covers the whole body). -/
def get_credentials (env : Cloud ρ) (account_id : String) :
    Except String (Option Creds) :=
  match env.assumeRole account_id with
  | .ok assumed => .ok (some ⟨assumed.accessKeyId, assumed.secretAccessKey, assumed.sessionToken⟩)
  | .error _ => .ok none

/-- `get_available_regions` (source lines 94-100): one `describe_regions`
call with the ambient identity, returning the region-name list; no
exception handling of its own. -/
def get_available_regions (env : Cloud ρ) : Except String (List String) :=
  env.describeRegions

/-- `get_vpcs` (source lines 102-113): `describe_vpcs` on the session,
empty list on any exception. -/
def get_vpcs (env : Cloud ρ) (session : Session) : List ρ :=
  match env.describeVpcs session.creds session.region with
  | .ok vpcs => vpcs
  | .error _ => []

/-- `get_subnets` (source lines 115-126). -/
def get_subnets (env : Cloud ρ) (session : Session) : List ρ :=
  match env.describeSubnets session.creds session.region with
  | .ok subnets => subnets
  | .error _ => []

/-- `get_security_groups` (source lines 128-139). -/
def get_security_groups (env : Cloud ρ) (session : Session) : List ρ :=
  match env.describeSecurityGroups session.creds session.region with
  | .ok security_groups => security_groups
  | .error _ => []

/-- `get_network_acls` (source lines 141-152). -/
def get_network_acls (env : Cloud ρ) (session : Session) : List ρ :=
  match env.describeNetworkAcls session.creds session.region with
  | .ok network_acls => network_acls
  | .error _ => []

/-- `get_route_tables` (source lines 154-165). -/
def get_route_tables (env : Cloud ρ) (session : Session) : List ρ :=
  match env.describeRouteTables session.creds session.region with
  | .ok route_tables => route_tables
  | .error _ => []

/-- `get_vpc_endpoints` (source lines 167-178). -/
def get_vpc_endpoints (env : Cloud ρ) (session : Session) : List ρ :=
  match env.describeVpcEndpoints session.creds session.region with
  | .ok vpc_endpoints => vpc_endpoints
  | .error _ => []

/-- `get_vpc_peering_connections` (source lines 180-191). -/
def get_vpc_peering_connections (env : Cloud ρ) (session : Session) : List ρ :=
  match env.describeVpcPeeringConnections session.creds session.region with
  | .ok vpc_peering_connections => vpc_peering_connections
  | .error _ => []

/-- `get_load_balancers` (source lines 193-204): the one collector on the
load-balancing (elbv2) API. -/
def get_load_balancers (env : Cloud ρ) (session : Session) : List ρ :=
  match env.describeLoadBalancers session.creds session.region with
  | .ok load_balancers => load_balancers
  | .error _ => []

/-- The `region_info` dict assembled at source lines 38-47: eight
successive assignments of fresh keys into an empty dict, one per
collector, in source order. -/
def build_region_info (env : Cloud ρ) (session : Session) : RegionInfo ρ :=
  let r0 : RegionInfo ρ := []
  let r1 := dictInsert "vpcs" (get_vpcs env session) r0
  let r2 := dictInsert "subnets" (get_subnets env session) r1
  let r3 := dictInsert "security_groups" (get_security_groups env session) r2
  let r4 := dictInsert "network_acls" (get_network_acls env session) r3
  let r5 := dictInsert "route_tables" (get_route_tables env session) r4
  let r6 := dictInsert "vpc_endpoints" (get_vpc_endpoints env session) r5
  let r7 := dictInsert "vpc_peering_connections" (get_vpc_peering_connections env session) r6
  let r8 := dictInsert "load_balancers" (get_load_balancers env session) r7
  r8

/-- `get_account_documentation` (source lines 23-53).  The whole body sits
inside one `try`: a `None` from `get_credentials` returns the empty dict
early; an exception from `get_available_regions` (called inside the
`try`, line 33) is caught at line 50 and yields the dict built so far,
which at that point is still empty.  Once the region list is obtained no
remaining step can raise (every collector catches its own exceptions), so
the loop fills `account_info` region by region. -/
def get_account_documentation (env : Cloud ρ) (account_id : String) : AccountInfo ρ :=
  match get_credentials env account_id with
  | .error _ => []
  | .ok none => []
  | .ok (some credentials) =>
    match get_available_regions env with
    | .error _ => []
    | .ok regions =>
      regions.foldl
        (fun account_info region =>
          dictInsert region (build_region_info env ⟨credentials, region⟩) account_info)
        []

/-- `get_root_id` (source lines 70-75): `list_roots`, then index `[0]`,
which raises `IndexError` on an empty root list; neither is caught
here. -/
def get_root_id (env : Cloud ρ) : Except String String :=
  match env.listRoots with
  | .error e => .error e
  | .ok [] => .error "IndexError: list index out of range"
  | .ok (root :: _) => .ok root

/-- `get_ous` (source lines 77-82): one
`list_organizational_units_for_parent` call, uncaught on failure. -/
def get_ous (env : Cloud ρ) (root_id : String) : Except String (List String) :=
  env.listOUsForParent root_id

/-- `get_accounts` (source lines 84-92): for each OU in order, list its
member accounts and extend the accumulator; the first failing call raises
out of the loop. -/
def get_accounts (env : Cloud ρ) : List String → Except String (List String)
  | [] => .ok []
  | ou :: rest =>
    match env.listAccountsForParent ou with
    | .error e => .error e
    | .ok ou_accounts =>
      match get_accounts env rest with
      | .error e => .error e
      | .ok more => .ok (ou_accounts ++ more)

/-- JSON string literal: `json.dumps` of a plain key string. -/
def jstr (s : String) : String := "\x22" ++ s ++ "\x22"

/-- `json.dumps` of a list, with the default `", "` separator. -/
def dumpsList (f : α → String) (l : List α) : String :=
  "[" ++ String.intercalate ", " (l.map f) ++ "]"

/-- `json.dumps` of a string-keyed dict in insertion order, with the
default `", "` and `": "` separators. -/
def dumpsDict (f : β → String) (d : List (String × β)) : String :=
  "\x7b" ++ String.intercalate ", " (d.map fun p => jstr p.1 ++ ": " ++ f p.2) ++ "\x7d"

/-- `json.dumps` of the full three-level document. -/
def dumps (ser : ρ → String) (doc : Documentation ρ) : String :=
  dumpsDict (dumpsDict (dumpsDict (dumpsList ser))) doc

/-- `store_documentation` (source lines 206-212): serialize and
`put_object` to the fixed bucket and key; failure is uncaught. -/
def store_documentation (env : Cloud ρ) (documentation : Documentation ρ) :
    Except String Unit :=
  env.putObject "your-documentation-bucket" "network-documentation.json"
    (dumps env.dumpRecord documentation)

/-- The `documentation` dict built by the loop at source lines 64-66:
one dict assignment per account record, keyed by its `Id`. -/
def buildDocumentation (env : Cloud ρ) (accounts : List String) : Documentation ρ :=
  accounts.foldl
    (fun documentation account =>
      dictInsert account (get_account_documentation env account) documentation)
    []

/-- `main` (source lines 55-68): organization walk, per-account
documentation, one store call.  For specification purposes it returns the
document passed to the store together with the exact serialized body
handed to `put_object`; `Except.error` is the run terminating on an
uncaught fault. -/
def main (env : Cloud ρ) : Except String (Documentation ρ × String) :=
  match get_root_id env with
  | .error e => .error e
  | .ok root_id =>
    match get_ous env root_id with
    | .error e => .error e
    | .ok ous =>
      match get_accounts env ous with
      | .error e => .error e
      | .ok accounts =>
        match store_documentation env (buildDocumentation env accounts) with
        | .error e => .error e
        | .ok _ =>
          .ok (buildDocumentation env accounts,
            dumps env.dumpRecord (buildDocumentation env accounts))

/-- The eight resource types, in the order `get_account_documentation`
inserts them. -/
inductive ResourceType where
  | vpcs
  | subnets
  | securityGroups
  | networkAcls
  | routeTables
  | vpcEndpoints
  | vpcPeeringConnections
  | loadBalancers
deriving DecidableEq, Repr

/-- The `region_info` key of each resource type. -/
def ResourceType.key : ResourceType → String
  | .vpcs => "vpcs"
  | .subnets => "subnets"
  | .securityGroups => "security_groups"
  | .networkAcls => "network_acls"
  | .routeTables => "route_tables"
  | .vpcEndpoints => "vpc_endpoints"
  | .vpcPeeringConnections => "vpc_peering_connections"
  | .loadBalancers => "load_balancers"

/-- The underlying API call of each resource type's collector. -/
def ResourceType.api (t : ResourceType) (env : Cloud ρ) :
    Creds → String → Except String (List ρ) :=
  match t with
  | .vpcs => env.describeVpcs
  | .subnets => env.describeSubnets
  | .securityGroups => env.describeSecurityGroups
  | .networkAcls => env.describeNetworkAcls
  | .routeTables => env.describeRouteTables
  | .vpcEndpoints => env.describeVpcEndpoints
  | .vpcPeeringConnections => env.describeVpcPeeringConnections
  | .loadBalancers => env.describeLoadBalancers

/-- The collector function of each resource type. -/
def ResourceType.collect (t : ResourceType) (env : Cloud ρ) (session : Session) : List ρ :=
  match t with
  | .vpcs => get_vpcs env session
  | .subnets => get_subnets env session
  | .securityGroups => get_security_groups env session
  | .networkAcls => get_network_acls env session
  | .routeTables => get_route_tables env session
  | .vpcEndpoints => get_vpc_endpoints env session
  | .vpcPeeringConnections => get_vpc_peering_connections env session
  | .loadBalancers => get_load_balancers env session

/-- The spec's two-account scenario: accounts "111" and "222" under one
OU; role assumption fails for "111" and succeeds for "222"; the single
region is "us-east-1"; every collector API returns zero resources; the
store succeeds.  Resource records are taken as `Nat` (the scenario has
none). -/
def scenarioEnv : Cloud Nat where
  listRoots := .ok ["r-root"]
  listOUsForParent := fun _ => .ok ["ou-1"]
  listAccountsForParent := fun _ => .ok ["111", "222"]
  assumeRole := fun account_id =>
    if account_id = "222" then .ok ⟨"AK", "SK", "ST"⟩ else .error "AccessDenied"
  describeRegions := .ok ["us-east-1"]
  describeVpcs := fun _ _ => .ok []
  describeSubnets := fun _ _ => .ok []
  describeSecurityGroups := fun _ _ => .ok []
  describeNetworkAcls := fun _ _ => .ok []
  describeRouteTables := fun _ _ => .ok []
  describeVpcEndpoints := fun _ _ => .ok []
  describeVpcPeeringConnections := fun _ _ => .ok []
  describeLoadBalancers := fun _ _ => .ok []
  putObject := fun _ _ _ => .ok ()
  dumpRecord := fun n => toString n

/-- The region mapping the scenario expects for account "222" in region
"us-east-1": the eight resource types, each with an empty list. -/
def emptyRegionInfo : RegionInfo Nat :=
  [("vpcs", []), ("subnets", []), ("security_groups", []), ("network_acls", []),
   ("route_tables", []), ("vpc_endpoints", []), ("vpc_peering_connections", []),
   ("load_balancers", [])]

/-- The scenario environment with the region-enumeration call failing:
`describe_regions` raises while everything else is as in `scenarioEnv`. -/
def regionFaultEnv : Cloud Nat :=
  { scenarioEnv with describeRegions := .error "UnauthorizedOperation" }

/-- The scenario environment with the `describe_vpcs` call failing in
every region: the VPC collector's underlying API raises while the other
seven collector APIs are as in `scenarioEnv`. -/
def vpcsFaultEnv : Cloud Nat :=
  { scenarioEnv with describeVpcs := fun _ _ => .error "Throttling" }

/-- The session `get_account_documentation` opens for account "222" in
region "us-east-1" under `scenarioEnv`. -/
def scenarioSession : Session := ⟨⟨"AK", "SK", "ST"⟩, "us-east-1"⟩

/-- The scenario environment with an organization whose root listing is
empty. -/
def emptyRootsEnv : Cloud Nat :=
  { scenarioEnv with listRoots := .ok [] }

/-- The scenario environment with an organization walk that returns the
account identifier "111" twice. -/
def dupAccountsEnv : Cloud Nat :=
  { scenarioEnv with listAccountsForParent := fun _ => .ok ["111", "222", "111"] }

/-- The scenario environment with zero organizational units directly
under root. -/
def noOUsEnv : Cloud Nat :=
  { scenarioEnv with listOUsForParent := fun _ => .ok [] }

/-- Helper for collector specifications: the value of a collector as a
function of its underlying API response, empty list on error. -/
def orEmpty {ρ : Type} : Except String (List ρ) → List ρ
  | .ok l => l
  | .error _ => []

/-- C1: in the two-account scenario (role assumption fails for "111",
succeeds for "222" with single region "us-east-1" and zero resources from
every collector), the document passed to the store is exactly
`{"111": {}, "222": {"us-east-1": {"vpcs": [], "subnets": [],
"security_groups": [], "network_acls": [], "route_tables": [],
"vpc_endpoints": [], "vpc_peering_connections": [],
"load_balancers": []}}}`, both as a structure and as the serialized
body handed to the store. -/
theorem claim_C1_scenario_document :
    main scenarioEnv =
      .ok ([("111", []), ("222", [("us-east-1", emptyRegionInfo)])],
        "\x7b\x22111\x22: \x7b\x7d, \x22222\x22: \x7b\x22us-east-1\x22: \x7b\x22vpcs\x22: [], \x22subnets\x22: [], \x22security_groups\x22: [], \x22network_acls\x22: [], \x22route_tables\x22: [], \x22vpc_endpoints\x22: [], \x22vpc_peering_connections\x22: [], \x22load_balancers\x22: []\x7d\x7d\x7d") := by
  rfl

/-- C3: when role assumption for an account raises, `get_credentials`
does not itself raise but returns the absent-credentials signal `None`,
and the documentation entry for that account is the empty mapping. -/
theorem claim_C3_absent_credentials {ρ : Type} (env : Cloud ρ) (account_id e : String)
    (h : env.assumeRole account_id = .error e) :
    get_credentials env account_id = .ok none ∧
      get_account_documentation env account_id = [] := by
  constructor
  · simp [get_credentials, h]
  · simp [get_account_documentation, get_credentials, h]

/-- Witness for C3 at `scenarioEnv` and account "111", whose role
assumption fails with "AccessDenied". -/
theorem claim_C3_absent_credentials_witness :
    get_credentials scenarioEnv "111" = .ok none ∧
      get_account_documentation scenarioEnv "111" = [] :=
  claim_C3_absent_credentials scenarioEnv "111" "AccessDenied" rfl

/-- C4 counterexample: with `describe_regions` raising
"UnauthorizedOperation" and account "222"'s role assumable, the fault
does NOT propagate out of the per-account orchestrator: the orchestrator
returns normally with an empty mapping, and the whole run completes and
still calls the store, contradicting the claim that a region-enumeration
fault is uncaught and terminates the run. -/
theorem claim_C4_counterexample :
    regionFaultEnv.describeRegions = .error "UnauthorizedOperation" ∧
      regionFaultEnv.assumeRole "222" = .ok ⟨"AK", "SK", "ST"⟩ ∧
      get_account_documentation regionFaultEnv "222" = [] ∧
      main regionFaultEnv =
        .ok ([("111", []), ("222", [])],
          "\x7b\x22111\x22: \x7b\x7d, \x22222\x22: \x7b\x7d\x7d") :=
  ⟨rfl, rfl, rfl, rfl⟩

/-- C4 amended: a fault raised by the region-enumeration operation,
which is invoked inside the per-account orchestrator's `try` block, is
caught by that orchestrator's blanket handler: the account's entry
degrades to the mapping built so far (necessarily empty, since regions
are enumerated before any entry is added) and the fault does not
propagate out of the orchestrator. -/
theorem claim_C4_amended {ρ : Type} (env : Cloud ρ) (account_id e : String) (creds : Creds)
    (hrole : env.assumeRole account_id = .ok creds)
    (hreg : env.describeRegions = .error e) :
    get_account_documentation env account_id = [] := by
  simp [get_account_documentation, get_credentials, hrole, get_available_regions, hreg]

/-- Witness for the amended C4 at `regionFaultEnv` and account "222". -/
theorem claim_C4_amended_witness :
    get_account_documentation regionFaultEnv "222" = [] :=
  claim_C4_amended regionFaultEnv "222" "UnauthorizedOperation" ⟨"AK", "SK", "ST"⟩ rfl rfl

/-- C10: `get_root_id` unconditionally indexes the first root: when the
root listing succeeds with an empty list it raises an uncaught
`IndexError` that propagates out of `main` and terminates the run, and
when the listing has at least one root it returns that root's identifier
(the error branch is unreachable). -/
theorem claim_C10_root_indexing {ρ : Type} (env : Cloud ρ) (roots : List String)
    (h : env.listRoots = .ok roots) :
    (roots = [] →
        get_root_id env = .error "IndexError: list index out of range" ∧
        main env = .error "IndexError: list index out of range") ∧
      (∀ r rest, roots = r :: rest → get_root_id env = .ok r) := by
  constructor
  · rintro rfl
    constructor
    · simp only [get_root_id, h]
    · simp only [main, get_root_id, h]
  · rintro r rest rfl
    simp only [get_root_id, h]

/-- Each collector returns its API response's list, or empty on error. -/
theorem collect_eq_orEmpty {ρ : Type} (t : ResourceType) (env : Cloud ρ) (s : Session) :
    t.collect env s = orEmpty (t.api env s.creds s.region) := by
  cases t <;>
    simp only [ResourceType.collect, ResourceType.api, get_vpcs, get_subnets,
      get_security_groups, get_network_acls, get_route_tables, get_vpc_endpoints,
      get_vpc_peering_connections, get_load_balancers, orEmpty]

/-- A collector whose underlying API call raises returns the empty list. -/
theorem collect_of_api_error {ρ : Type} (t : ResourceType) (env : Cloud ρ) (s : Session)
    (e : String) (h : t.api env s.creds s.region = .error e) :
    t.collect env s = [] := by
  rw [collect_eq_orEmpty, h]
  rfl

/-- A collector's result depends only on its own underlying API call. -/
theorem collect_congr {ρ : Type} (t : ResourceType) (env₁ env₂ : Cloud ρ) (s : Session)
    (h : t.api env₂ = t.api env₁) :
    t.collect env₂ s = t.collect env₁ s := by
  rw [collect_eq_orEmpty, collect_eq_orEmpty, h]

/-- Looking up a resource type's key in the assembled `region_info` dict
yields exactly that type's collector result. -/
theorem lookup_build_region_info {ρ : Type} (t : ResourceType) (env : Cloud ρ) (s : Session) :
    dictLookup t.key (build_region_info env s) = some (t.collect env s) := by
  cases t <;> rfl

/-- C2: for every region and every one of the eight collectors, if that
collector's underlying API call raises then its entry in the region's
mapping is the empty list, and the entries of the other seven resource
types are unaffected (they agree with the run in which that API did not
fail, provided the other seven APIs are unchanged). -/
theorem claim_C2_fault_isolation {ρ : Type} (env₁ env₂ : Cloud ρ) (s : Session)
    (t : ResourceType) (e : String)
    (hagree : ∀ u : ResourceType, u ≠ t → u.api env₂ = u.api env₁)
    (hfail : t.api env₂ s.creds s.region = .error e) :
    dictLookup t.key (build_region_info env₂ s) = some [] ∧
      ∀ u : ResourceType, u ≠ t →
        dictLookup u.key (build_region_info env₂ s) =
          dictLookup u.key (build_region_info env₁ s) := by
  constructor
  · rw [lookup_build_region_info, collect_of_api_error t env₂ s e hfail]
  · intro u hu
    rw [lookup_build_region_info, lookup_build_region_info,
      collect_congr u env₁ env₂ s (hagree u hu)]

/-- Witness for C2: the VPC collector's API fails under `vpcsFaultEnv`
while the other seven APIs are those of `scenarioEnv`. -/
theorem claim_C2_fault_isolation_witness :
    dictLookup ResourceType.vpcs.key (build_region_info vpcsFaultEnv scenarioSession) =
        some [] ∧
      ∀ u : ResourceType, u ≠ ResourceType.vpcs →
        dictLookup u.key (build_region_info vpcsFaultEnv scenarioSession) =
          dictLookup u.key (build_region_info scenarioEnv scenarioSession) :=
  claim_C2_fault_isolation scenarioEnv vpcsFaultEnv scenarioSession ResourceType.vpcs
    "Throttling"
    (by intro u hu; cases u <;> first | rfl | exact absurd rfl hu)
    rfl

/-- Membership in a dict after a Python-style insert: the pair is either
the inserted binding or was already present. -/
theorem mem_dictInsert {α β : Type} [DecidableEq α] {key k : α} {val v : β}
    {l : List (α × β)} :
    (k, v) ∈ dictInsert key val l → (k = key ∧ v = val) ∨ (k, v) ∈ l := by
  induction l with
  | nil =>
    intro h
    simp [dictInsert] at h
    exact Or.inl h
  | cons p rest ih =>
    obtain ⟨k₀, v₀⟩ := p
    intro h
    by_cases hk : k₀ = key
    · subst hk
      simp only [dictInsert, if_pos rfl] at h
      rcases List.mem_cons.mp h with h | h
      · exact Or.inl ⟨congrArg Prod.fst h, congrArg Prod.snd h⟩
      · exact Or.inr (List.mem_cons_of_mem _ h)
    · simp only [dictInsert, if_neg hk] at h
      rcases List.mem_cons.mp h with h | h
      · exact Or.inr (by rw [h]; exact List.mem_cons_self _ _)
      · rcases ih h with h | h
        · exact Or.inl h
        · exact Or.inr (List.mem_cons_of_mem _ h)

/-- In a dict built by repeatedly inserting `x ↦ f x`, every binding's
value is `f` of its key. -/
theorem foldl_dictInsert_snd {α β : Type} [DecidableEq α] (f : α → β) (l : List α) :
    ∀ init : List (α × β), (∀ p ∈ init, p.2 = f p.1) →
      ∀ p ∈ l.foldl (fun acc x => dictInsert x (f x) acc) init, p.2 = f p.1 := by
  induction l with
  | nil => intro init hinit p hp; exact hinit p hp
  | cons x rest ih =>
    intro init hinit p hp
    refine ih (dictInsert x (f x) init) ?_ p hp
    rintro ⟨qk, qv⟩ hq
    rcases mem_dictInsert hq with ⟨h1, h2⟩ | hmem
    · subst h1; exact h2
    · exact hinit _ hmem

/-- The keys of the assembled `region_info` dict, in insertion order. -/
theorem build_region_info_keys {ρ : Type} (env : Cloud ρ) (s : Session) :
    (build_region_info env s).map Prod.fst =
      ["vpcs", "subnets", "security_groups", "network_acls", "route_tables",
        "vpc_endpoints", "vpc_peering_connections", "load_balancers"] := by
  rfl

/-- C9: every region mapping present in an account's documentation (which
exists exactly when credentials were obtained and the region loop ran)
contains exactly the eight resource-type keys, inserted in source
order, and no others. -/
theorem claim_C9_region_keys {ρ : Type} (env : Cloud ρ) (account_id region : String)
    (info : RegionInfo ρ)
    (hmem : (region, info) ∈ get_account_documentation env account_id) :
    info.map Prod.fst =
      ["vpcs", "subnets", "security_groups", "network_acls", "route_tables",
        "vpc_endpoints", "vpc_peering_connections", "load_balancers"] := by
  unfold get_account_documentation at hmem
  split at hmem
  · simp at hmem
  · simp at hmem
  · rename_i credentials heq
    split at hmem
    · simp at hmem
    · rename_i regions hreg
      have h2 := foldl_dictInsert_snd
        (fun r => build_region_info env ⟨credentials, r⟩) regions [] (by simp)
        (region, info) hmem
      simp only at h2
      rw [h2]
      exact build_region_info_keys env ⟨credentials, region⟩

/-- Witness for C9 at `scenarioEnv`, account "222", region "us-east-1". -/
theorem claim_C9_region_keys_witness :
    emptyRegionInfo.map Prod.fst =
      ["vpcs", "subnets", "security_groups", "network_acls", "route_tables",
        "vpc_endpoints", "vpc_peering_connections", "load_balancers"] :=
  claim_C9_region_keys scenarioEnv "222" "us-east-1" emptyRegionInfo (by decide)

/-- Witness for C10 at an environment whose root listing is empty. -/
theorem claim_C10_root_indexing_witness :
    (([] : List String) = [] →
        get_root_id emptyRootsEnv = .error "IndexError: list index out of range" ∧
        main emptyRootsEnv = .error "IndexError: list index out of range") ∧
      (∀ r rest, ([] : List String) = r :: rest → get_root_id emptyRootsEnv = .ok r) :=
  claim_C10_root_indexing emptyRootsEnv [] rfl

/-- Key membership after a Python-style dict insert. -/
theorem dictInsert_keys_mem {α β : Type} [DecidableEq α] (key a : α) (val : β)
    (l : List (α × β)) :
    a ∈ (dictInsert key val l).map Prod.fst ↔ a = key ∨ a ∈ l.map Prod.fst := by
  induction l with
  | nil => simp [dictInsert]
  | cons p rest ih =>
    obtain ⟨k₀, v₀⟩ := p
    by_cases hk : k₀ = key
    · subst hk
      simp only [dictInsert, if_pos rfl, if_true, eq_self_iff_true, List.map_cons,
        List.mem_cons]
      tauto
    · simp only [dictInsert, if_neg hk, List.map_cons, List.mem_cons, ih]
      tauto

/-- A Python-style dict insert preserves distinctness of keys. -/
theorem dictInsert_keys_nodup {α β : Type} [DecidableEq α] (key : α) (val : β)
    (l : List (α × β)) :
    (l.map Prod.fst).Nodup → ((dictInsert key val l).map Prod.fst).Nodup := by
  induction l with
  | nil =>
    intro _
    simp [dictInsert]
  | cons p rest ih =>
    obtain ⟨k₀, v₀⟩ := p
    intro h
    simp only [List.map_cons, List.nodup_cons] at h
    obtain ⟨hnotin, hrest⟩ := h
    by_cases hk : k₀ = key
    · subst hk
      simp only [dictInsert, if_pos rfl, if_true, eq_self_iff_true, List.map_cons,
        List.nodup_cons]
      exact ⟨hnotin, hrest⟩
    · simp only [dictInsert, if_neg hk, List.map_cons, List.nodup_cons]
      refine ⟨?_, ih hrest⟩
      rw [dictInsert_keys_mem]
      rintro (rfl | hmem)
      · exact hk rfl
      · exact hnotin hmem

/-- Key membership for a dict built by a fold of Python-style inserts. -/
theorem foldl_dictInsert_keys_mem {α β : Type} [DecidableEq α] (f : α → β) (l : List α) :
    ∀ (init : List (α × β)) (a : α),
      a ∈ ((l.foldl (fun acc x => dictInsert x (f x) acc) init).map Prod.fst) ↔
        a ∈ l ∨ a ∈ init.map Prod.fst := by
  induction l with
  | nil =>
    intro init a
    simp
  | cons x rest ih =>
    intro init a
    rw [List.foldl_cons, ih, dictInsert_keys_mem]
    simp only [List.mem_cons]
    tauto

/-- Distinctness of keys for a dict built by a fold of Python-style
inserts. -/
theorem foldl_dictInsert_keys_nodup {α β : Type} [DecidableEq α] (f : α → β) (l : List α) :
    ∀ init : List (α × β), (init.map Prod.fst).Nodup →
      ((l.foldl (fun acc x => dictInsert x (f x) acc) init).map Prod.fst).Nodup := by
  induction l with
  | nil =>
    intro init h
    simpa using h
  | cons x rest ih =>
    intro init h
    rw [List.foldl_cons]
    exact ih _ (dictInsert_keys_nodup x (f x) init h)

/-- C5: the document handed to the store has exactly one top-level key
per account identifier returned by the organization walk: its keys are
distinct, an identifier is a key exactly when the walk returned it (so
duplicates from the walk are collapsed), and the document `main` passes
to the store is precisely the one built from the walk's account list. -/
theorem claim_C5_top_level_keys {ρ : Type} (env : Cloud ρ) (accounts : List String) :
    ((buildDocumentation env accounts).map Prod.fst).Nodup ∧
      (∀ a, a ∈ (buildDocumentation env accounts).map Prod.fst ↔ a ∈ accounts) ∧
      (∀ root ous doc body, get_root_id env = .ok root → get_ous env root = .ok ous →
        get_accounts env ous = .ok accounts → main env = .ok (doc, body) →
        doc = buildDocumentation env accounts) := by
  refine ⟨?_, ?_, ?_⟩
  · exact foldl_dictInsert_keys_nodup _ accounts [] (by simp)
  · intro a
    rw [buildDocumentation, foldl_dictInsert_keys_mem]
    simp
  · intro root ous doc body h1 h2 h3 h4
    simp only [main, h1, h2, h3] at h4
    cases hs : store_documentation env (buildDocumentation env accounts) with
    | error e =>
      rw [hs] at h4
      simp at h4
    | ok u =>
      rw [hs] at h4
      simp only [Except.ok.injEq, Prod.mk.injEq] at h4
      exact h4.1.symm

/-- Witness for C5 at `dupAccountsEnv`, whose organization walk returns
the account identifier "111" twice. -/
theorem claim_C5_top_level_keys_witness :
    ((buildDocumentation dupAccountsEnv ["111", "222", "111"]).map Prod.fst).Nodup ∧
      ("111" ∈ (buildDocumentation dupAccountsEnv ["111", "222", "111"]).map Prod.fst ↔
        "111" ∈ ["111", "222", "111"]) ∧
      buildDocumentation dupAccountsEnv ["111", "222", "111"] =
        buildDocumentation dupAccountsEnv ["111", "222", "111"] :=
  ⟨(claim_C5_top_level_keys dupAccountsEnv ["111", "222", "111"]).1,
    (claim_C5_top_level_keys dupAccountsEnv ["111", "222", "111"]).2.1 "111",
    (claim_C5_top_level_keys dupAccountsEnv ["111", "222", "111"]).2.2 "r-root" ["ou-1"]
      (buildDocumentation dupAccountsEnv ["111", "222", "111"])
      (dumps dupAccountsEnv.dumpRecord (buildDocumentation dupAccountsEnv ["111", "222", "111"]))
      rfl rfl rfl rfl⟩

/-- C6: the organization walk is the three sequential calls modelled by
`get_root_id`, `get_ous` and `get_accounts`: the root lookup returns the
first root identifier, the OU lookup is exactly the
list-organizational-units call on that root, and `get_accounts` returns
the concatenation, in OU order, of the per-OU account listings — and
nothing else (accounts directly under root or in nested sub-units never
enter the result). -/
theorem claim_C6_org_walk {ρ : Type} (env : Cloud ρ) (root_id : String) (ous : List String)
    (lists : List (List String))
    (h : List.Forall₂ (fun ou accts => env.listAccountsForParent ou = Except.ok accts)
      ous lists) :
    get_accounts env ous = .ok lists.flatten ∧
      get_ous env root_id = env.listOUsForParent root_id ∧
      (∀ r rest, env.listRoots = .ok (r :: rest) → get_root_id env = .ok r) := by
  refine ⟨?_, rfl, ?_⟩
  · induction h with
    | nil => rfl
    | cons ha hrest ih =>
      simp only [get_accounts, ha, ih, List.flatten_cons]
  · intro r rest hr
    simp only [get_root_id, hr]

/-- Witness for C6 at `scenarioEnv`: one OU containing the two scenario
accounts. -/
theorem claim_C6_org_walk_witness :
    get_accounts scenarioEnv ["ou-1"] = .ok [["111", "222"]].flatten ∧
      get_ous scenarioEnv "r-root" = scenarioEnv.listOUsForParent "r-root" ∧
      get_root_id scenarioEnv = .ok "r-root" := by
  have h := claim_C6_org_walk scenarioEnv "r-root" ["ou-1"] [["111", "222"]]
    (List.Forall₂.cons rfl List.Forall₂.nil)
  exact ⟨h.1, h.2.1, h.2.2 "r-root" [] rfl⟩

/-- C7: when the organization has zero organizational units directly
under root, the walk's account list is empty and the document passed to
the store is the empty mapping, serialized as the two-character body. -/
theorem claim_C7_zero_ous {ρ : Type} (env : Cloud ρ) (root : String) (rest : List String)
    (h1 : env.listRoots = .ok (root :: rest))
    (h2 : env.listOUsForParent root = .ok [])
    (hput : ∀ b k body, env.putObject b k body = .ok ()) :
    get_accounts env ([] : List String) = .ok [] ∧
      main env = .ok ([], "\x7b\x7d") := by
  refine ⟨rfl, ?_⟩
  simp only [main, get_root_id, h1, get_ous, h2, get_accounts, buildDocumentation,
    store_documentation, hput]
  rfl

/-- Witness for C7 at `noOUsEnv`. -/
theorem claim_C7_zero_ous_witness :
    get_accounts noOUsEnv ([] : List String) = .ok [] ∧
      main noOUsEnv = .ok ([], "\x7b\x7d") :=
  claim_C7_zero_ous noOUsEnv "r-root" [] rfl rfl (fun _ _ _ => rfl)

/-- C8: determinism as a two-run property — two runs of the whole
pipeline against environments whose every API response (and record
serialization) agrees pointwise produce identical results, in particular
byte-for-byte identical serialized bodies. -/
theorem claim_C8_determinism {ρ : Type} (env₁ env₂ : Cloud ρ)
    (hroots : env₁.listRoots = env₂.listRoots)
    (hous : ∀ parent, env₁.listOUsForParent parent = env₂.listOUsForParent parent)
    (haccts : ∀ parent, env₁.listAccountsForParent parent = env₂.listAccountsForParent parent)
    (hrole : ∀ a, env₁.assumeRole a = env₂.assumeRole a)
    (hregions : env₁.describeRegions = env₂.describeRegions)
    (hvpcs : ∀ c r, env₁.describeVpcs c r = env₂.describeVpcs c r)
    (hsubnets : ∀ c r, env₁.describeSubnets c r = env₂.describeSubnets c r)
    (hsg : ∀ c r, env₁.describeSecurityGroups c r = env₂.describeSecurityGroups c r)
    (hacls : ∀ c r, env₁.describeNetworkAcls c r = env₂.describeNetworkAcls c r)
    (hrt : ∀ c r, env₁.describeRouteTables c r = env₂.describeRouteTables c r)
    (hep : ∀ c r, env₁.describeVpcEndpoints c r = env₂.describeVpcEndpoints c r)
    (hpeer : ∀ c r, env₁.describeVpcPeeringConnections c r = env₂.describeVpcPeeringConnections c r)
    (hlb : ∀ c r, env₁.describeLoadBalancers c r = env₂.describeLoadBalancers c r)
    (hput : ∀ b k body, env₁.putObject b k body = env₂.putObject b k body)
    (hdump : ∀ x, env₁.dumpRecord x = env₂.dumpRecord x) :
    main env₁ = main env₂ := by
  obtain ⟨a1, a2, a3, a4, a5, a6, a7, a8, a9, a10, a11, a12, a13, a14, a15⟩ := env₁
  obtain ⟨b1, b2, b3, b4, b5, b6, b7, b8, b9, b10, b11, b12, b13, b14, b15⟩ := env₂
  have e1 : a1 = b1 := hroots
  have e2 : a2 = b2 := funext hous
  have e3 : a3 = b3 := funext haccts
  have e4 : a4 = b4 := funext hrole
  have e5 : a5 = b5 := hregions
  have e6 : a6 = b6 := funext fun c => funext (hvpcs c)
  have e7 : a7 = b7 := funext fun c => funext (hsubnets c)
  have e8 : a8 = b8 := funext fun c => funext (hsg c)
  have e9 : a9 = b9 := funext fun c => funext (hacls c)
  have e10 : a10 = b10 := funext fun c => funext (hrt c)
  have e11 : a11 = b11 := funext fun c => funext (hep c)
  have e12 : a12 = b12 := funext fun c => funext (hpeer c)
  have e13 : a13 = b13 := funext fun c => funext (hlb c)
  have e14 : a14 = b14 := funext fun b => funext fun k => funext (hput b k)
  have e15 : a15 = b15 := funext hdump
  subst e1 e2 e3 e4 e5 e6 e7 e8 e9 e10 e11 e12 e13 e14 e15
  rfl

/-- Witness for C8: two runs against the scenario environment. -/
theorem claim_C8_determinism_witness : main scenarioEnv = main scenarioEnv :=
  claim_C8_determinism scenarioEnv scenarioEnv rfl (fun _ => rfl) (fun _ => rfl)
    (fun _ => rfl) rfl (fun _ _ => rfl) (fun _ _ => rfl) (fun _ _ => rfl) (fun _ _ => rfl)
    (fun _ _ => rfl) (fun _ _ => rfl) (fun _ _ => rfl) (fun _ _ => rfl)
    (fun _ _ _ => rfl) (fun _ => rfl)

end NetworkDoc
